import Mathlib

/-!
Verification development for the wheatTDM repository.

The geoprocessing pipeline (src/tillerDensityApp) and the legacy inference
service (src/legacy_infer) are shallowly embedded below.  Numpy float32
arithmetic is idealised as exact rational arithmetic extended with the IEEE
special values (+inf, -inf, NaN): finite operations are exact, and the
propagation / creation of non-finite values (division by zero, square root
of a negative, operations on NaN) follows the IEEE rules that numpy
implements.  Rounding and overflow of float32 are not modelled.
-/

namespace WheatTDM

/-- An idealised numpy float32 value: a finite rational, one of the two
infinities, or NaN.  Finite arithmetic is exact (no rounding/overflow). -/
inductive F where
  | fin (q : ℚ)
  | pinf
  | ninf
  | nan
deriving DecidableEq, Repr

namespace F

/-- `np.isfinite`. -/
def isFinite : F → Bool
  | .fin _ => true
  | _ => false

/-- IEEE addition on extended values (exact on finite operands). -/
def add : F → F → F
  | .nan, _ => .nan
  | .fin a, .fin b => .fin (a + b)
  | .fin _, .pinf => .pinf
  | .fin _, .ninf => .ninf
  | .fin _, .nan => .nan
  | .pinf, .fin _ => .pinf
  | .pinf, .pinf => .pinf
  | .pinf, .ninf => .nan
  | .pinf, .nan => .nan
  | .ninf, .fin _ => .ninf
  | .ninf, .pinf => .nan
  | .ninf, .ninf => .ninf
  | .ninf, .nan => .nan

/-- IEEE subtraction on extended values. -/
def sub : F → F → F
  | .nan, _ => .nan
  | .fin a, .fin b => .fin (a - b)
  | .fin _, .pinf => .ninf
  | .fin _, .ninf => .pinf
  | .fin _, .nan => .nan
  | .pinf, .fin _ => .pinf
  | .pinf, .pinf => .nan
  | .pinf, .ninf => .pinf
  | .pinf, .nan => .nan
  | .ninf, .fin _ => .ninf
  | .ninf, .pinf => .ninf
  | .ninf, .ninf => .nan
  | .ninf, .nan => .nan

/-- IEEE multiplication on extended values (`inf * 0 = NaN`). -/
def mul : F → F → F
  | .nan, _ => .nan
  | .fin a, .fin b => .fin (a * b)
  | .fin a, .pinf => if 0 < a then .pinf else if a < 0 then .ninf else .nan
  | .fin a, .ninf => if 0 < a then .ninf else if a < 0 then .pinf else .nan
  | .fin _, .nan => .nan
  | .pinf, .fin b => if 0 < b then .pinf else if b < 0 then .ninf else .nan
  | .pinf, .pinf => .pinf
  | .pinf, .ninf => .ninf
  | .pinf, .nan => .nan
  | .ninf, .fin b => if 0 < b then .ninf else if b < 0 then .pinf else .nan
  | .ninf, .pinf => .ninf
  | .ninf, .ninf => .pinf
  | .ninf, .nan => .nan

/-- IEEE division on extended values: a nonzero finite numerator over zero
gives a signed infinity, `0/0` gives NaN, `inf/inf` gives NaN. -/
def div : F → F → F
  | .nan, _ => .nan
  | .fin a, .fin b =>
      if b = 0 then (if a = 0 then .nan else if 0 < a then .pinf else .ninf)
      else .fin (a / b)
  | .fin _, .pinf => .fin 0
  | .fin _, .ninf => .fin 0
  | .fin _, .nan => .nan
  | .pinf, .fin b => if b < 0 then .ninf else .pinf
  | .pinf, .pinf => .nan
  | .pinf, .ninf => .nan
  | .pinf, .nan => .nan
  | .ninf, .fin b => if b < 0 then .pinf else .ninf
  | .ninf, .pinf => .nan
  | .ninf, .ninf => .nan
  | .ninf, .nan => .nan

instance : Add F := ⟨F.add⟩
instance : Sub F := ⟨F.sub⟩
instance : Mul F := ⟨F.mul⟩
instance : Div F := ⟨F.div⟩

/-- A computable rational under-approximation of the square root, used as the
finite value of `sqrtF`.  The claims checked below depend only on the
finiteness classification of square roots (NaN exactly on negative finite
arguments, as in IEEE/numpy) and on `ratSqrt 0 = 0`; the finite value at
other points is never relied upon. -/
def ratSqrt (q : ℚ) : ℚ :=
  (Nat.sqrt (q.num.toNat * q.den) : ℚ) / (q.den : ℚ)

/-- `np.sqrt` on extended values: NaN on negative (or NaN) input. -/
def sqrtF : F → F
  | .fin a => if a < 0 then .nan else .fin (ratSqrt a)
  | .pinf => .pinf
  | .ninf => .nan
  | .nan => .nan

/-- The numpy elementwise comparison `x != 0` (NaN and infinities compare
unequal to zero). -/
def neqZero : F → Bool
  | .fin q => decide (q ≠ 0)
  | _ => true

/-- The finite rational carried by an extended value (0 for a non-finite
value); proof-infrastructure accessor, not part of the embedded program. -/
def val : F → ℚ
  | .fin q => q
  | _ => 0

end F

/-- A 2-D raster band / derived index layer: value at (row, col). -/
abbrev Grid := ℕ → ℕ → F

/-- A height-width-channels image as consumed by `indices_calculator`:
value at (row, col, band). -/
abbrev Image := ℕ → ℕ → ℕ → F

/-! ## src/tillerDensityApp/rs_indices.py -/

/-- `evi_calculation(NIR, RED, BLUE)`: the repository's Enhanced Vegetation
Index helper, `G * ((NIR - RED) / (NIR + C1*RED - C2*BLUE + L))` with
`G = 2.5`, `C1 = 6`, `C2 = 7.5`, `L = 1`. -/
def evi_calculation (NIR RED BLUE : F) : F :=
  let G := F.fin (5/2)
  let C1 := F.fin 6
  let C2 := F.fin (15/2)
  let L := F.fin 1
  G * ((NIR - RED) / (NIR + C1 * RED - C2 * BLUE + L))

/-- `FEATURE_ORDER_21`: the canonical 21-feature slot order. -/
def FEATURE_ORDER_21 : List String :=
  ["B", "G1", "G", "Y", "R", "RE", "NIR",
   "NDVI", "EVI", "GNDVI", "SAVI", "NDRE", "MSAVI", "GCI",
   "RVI_1", "RGVI", "NDWI", "RVI_2", "SIPI", "NEXG", "NGRDI"]

/-- `_sanitize(arr, fill_value)`: replace every non-finite entry by the fill
value (pointwise over the grid). -/
def sanitize (g : Grid) (fill_value : ℚ) : Grid :=
  fun r c => if (g r c).isFinite then g r c else F.fin fill_value

/-- The ordered layer dictionary built by `indices_calculator` (a Python
`dict` preserves insertion order; it is modelled as an association list in
insertion order).  Expected input band order: [B, G, R, NIR, SWIR1, SWIR2]. -/
def indices_layers (input_image : Image) : List (String × Grid) :=
  let fill_value : ℚ := -9999
  let B : Grid := fun r c => input_image r c 0
  let G : Grid := fun r c => input_image r c 1
  let R : Grid := fun r c => input_image r c 2
  let NIR : Grid := fun r c => input_image r c 3
  let SWIR1 : Grid := fun r c => input_image r c 4
  let SWIR2 : Grid := fun r c => input_image r c 5
  let NDVI := sanitize (fun r c => (NIR r c - R r c) / (NIR r c + R r c)) fill_value
  let EVI := sanitize (fun r c =>
    (NIR r c - R r c) / (NIR r c + F.fin 6 * R r c - F.fin (15/2) * B r c + F.fin 1)) fill_value
  let GNDVI := sanitize (fun r c => (NIR r c - G r c) / (NIR r c + G r c)) fill_value
  let L_val : ℚ := 1/2
  let SAVI := sanitize (fun r c =>
    ((NIR r c - R r c) / (NIR r c + R r c + F.fin L_val)) * F.fin (1 + L_val)) fill_value
  let NDMI := sanitize (fun r c => (NIR r c - SWIR1 r c) / (NIR r c + SWIR1 r c)) fill_value
  let MSAVI := sanitize (fun r c =>
    F.fin (1/2) * ((F.fin 2 * NIR r c + F.fin 1) -
      F.sqrtF ((F.fin 2 * NIR r c + F.fin 1) * (F.fin 2 * NIR r c + F.fin 1) -
        F.fin 8 * (NIR r c - R r c)))) fill_value
  let GCI := sanitize (fun r c => (NIR r c / G r c) - F.fin 1) fill_value
  let RVI_1 := sanitize (fun r c => NIR r c / R r c) fill_value
  let RGVI := sanitize (fun r c => R r c / G r c) fill_value
  let NDWI := sanitize (fun r c => (G r c - NIR r c) / (G r c + NIR r c)) fill_value
  let RVI_2 := sanitize (fun r c => NIR r c / G r c) fill_value
  let SIPI := sanitize (fun r c => (NIR r c - B r c) / (NIR r c + R r c)) fill_value
  let NEXG := sanitize (fun r c =>
    (F.fin 2 * G r c - R r c - B r c) / (G r c + R r c + B r c)) fill_value
  let NGRDI := sanitize (fun r c => (G r c - R r c) / (G r c + R r c)) fill_value
  let NIRv := sanitize (fun r c => NIR r c * NDVI r c) fill_value
  [("B", sanitize B fill_value),
   ("G1", sanitize SWIR1 fill_value),
   ("G", sanitize G fill_value),
   ("Y", sanitize SWIR2 fill_value),
   ("R", sanitize R fill_value),
   ("RE", NIRv),
   ("NIR", sanitize NIR fill_value),
   ("NDVI", NDVI),
   ("EVI", EVI),
   ("GNDVI", GNDVI),
   ("SAVI", SAVI),
   ("NDRE", NDMI),
   ("MSAVI", MSAVI),
   ("GCI", GCI),
   ("RVI_1", RVI_1),
   ("RGVI", RGVI),
   ("NDWI", NDWI),
   ("RVI_2", RVI_2),
   ("SIPI", SIPI),
   ("NEXG", NEXG),
   ("NGRDI", NGRDI)]

/-- `indices_calculator(input_image)`: build the ordered layer dictionary and
guard against accidental order drift (`ValueError` on key-order mismatch,
modelled as `Except.error`). -/
def indices_calculator (input_image : Image) : Except String (List (String × Grid)) :=
  let layers := indices_layers input_image
  if layers.map Prod.fst = FEATURE_ORDER_21 then Except.ok layers
  else Except.error "Feature order mismatch for PS-compatible 21-feature schema."

/-- Look a layer up by name in the ordered dictionary (NaN-grid default,
never reached in the proofs below). -/
def layerAt (layers : List (String × Grid)) (name : String) : Grid :=
  (layers.lookup name).getD (fun _ _ => F.nan)

/-! ## src/tillerDensityApp/deep_learning.py -/

/-- A rasterio clip result: a (bands, height, width) array. `data` is indexed
as (band, row, col). -/
structure Clipped where
  bands : ℕ
  height : ℕ
  width : ℕ
  data : ℕ → ℕ → ℕ → F

/-- `np.transpose(clipped_image, (1, 2, 0))`: (bands, h, w) to (h, w, bands). -/
def transpose_hwc (c : Clipped) : Image :=
  fun r col b => c.data b r col

/-- `prepare_features(clipped_image)`: reject any band count other than 6,
build the 21 layers, re-check the canonical order, stack the layers in
canonical order and flatten each to a row-major pixel column, returning
`(feature_input, height, width)` with `feature_input` of shape
(num_pixels, 21). -/
def prepare_features (c : Clipped) :
    Except String ((ℕ → ℕ → F) × ℕ × ℕ) :=
  if c.bands ≠ 6 then
    Except.error ("Expected 6-band HLS input, got " ++ toString c.bands ++ " bands.")
  else
    match indices_calculator (transpose_hwc c) with
    | Except.error e => Except.error e
    | Except.ok features_dict =>
      let band_names := features_dict.map Prod.fst
      if band_names ≠ FEATURE_ORDER_21 then
        Except.error ("Feature order mismatch. Expected " ++ toString FEATURE_ORDER_21 ++
          ", got " ++ toString band_names ++ ".")
      else
        let stacked : List Grid :=
          FEATURE_ORDER_21.map (fun name => (features_dict.lookup name).getD (fun _ _ => F.nan))
        let feature_input : ℕ → ℕ → F := fun p j =>
          (stacked.getD j (fun _ _ => F.nan)) (p / c.width) (p % c.width)
        Except.ok (feature_input, c.height, c.width)

/-- The reshape branch of `predict_density` (deep_learning.py lines 102-120):
adapt the scaled (num_samples, num_features) matrix to the model's declared
(steps, channels).  The `(4, 6)` branch repeats the single step 4 times, so
every step of the result holds the same 6 channels. -/
def predict_density_reshape (expected_steps expected_channels _num_samples num_features : ℕ)
    (M : ℕ → ℕ → F) : Except String (ℕ → ℕ → ℕ → F) :=
  if expected_steps = num_features ∧ expected_channels = 1 then
    Except.ok (fun i s _c => M i s)
  else if expected_steps = 1 ∧ expected_channels = num_features then
    Except.ok (fun i _s c => M i c)
  else if expected_steps = 4 ∧ expected_channels = 6 ∧ num_features = 6 then
    Except.ok (fun i _s c => M i c)
  else
    Except.error ("Model expects (" ++ toString expected_steps ++ ", " ++
      toString expected_channels ++ ") but provided features shape is (" ++
      toString num_features ++ ").")

/-! ## src/legacy_infer/app.py -/

/-- Sum of a list of extended values, as numpy folds an array. -/
def npSum (l : List F) : F := l.foldl F.add (F.fin 0)

/-- `np.mean` over a list of values (NaN for an empty list, via `0/0`). -/
def npMean (l : List F) : F := npSum l / F.fin (l.length : ℚ)

/-- The values of column `j` of an (rows × cols) matrix. -/
def colVals (rows : ℕ) (M : ℕ → ℕ → F) (j : ℕ) : List F :=
  (List.range rows).map (fun i => M i j)

/-- `np.mean(feature_input, axis=0)` at column `j`. -/
def colMean (rows : ℕ) (M : ℕ → ℕ → F) (j : ℕ) : F :=
  npMean (colVals rows M j)

/-- `np.std(feature_input, axis=0)` at column `j`: the square root of the
mean squared deviation from the column mean. -/
def colStd (rows : ℕ) (M : ℕ → ℕ → F) (j : ℕ) : F :=
  let m := colMean rows M j
  F.sqrtF (npMean ((colVals rows M j).map (fun x => (x - m) * (x - m))))

/-- `scale_features(feature_input)`: per-column standardisation, with
`np.where(stds == 0.0, 1.0, stds)` guarding the division. -/
def scale_features (rows : ℕ) (M : ℕ → ℕ → F) : ℕ → ℕ → F :=
  fun i j =>
    let means := colMean rows M j
    let stds := colStd rows M j
    let stds2 := if stds = F.fin 0 then F.fin 1 else stds
    (M i j - means) / stds2

/-- `reshape_for_model(feature_input, model)` (legacy service): same branch
structure as `predict_density`, with the legacy error message. -/
def reshape_for_model (expected_steps expected_channels _num_samples num_features : ℕ)
    (M : ℕ → ℕ → F) : Except String (ℕ → ℕ → ℕ → F) :=
  if expected_steps = num_features ∧ expected_channels = 1 then
    Except.ok (fun i s _c => M i s)
  else if expected_steps = 1 ∧ expected_channels = num_features then
    Except.ok (fun i _s c => M i c)
  else if expected_steps = 4 ∧ expected_channels = 6 ∧ num_features = 6 then
    Except.ok (fun i _s c => M i c)
  else
    Except.error ("Model expects (" ++ toString expected_steps ++ ", " ++
      toString expected_channels ++ ") but provided feature shape is (" ++
      toString num_features ++ ").")

/-! ## src/tillerDensityApp/views.py -/

/-- A GeoJSON geometry: coordinate pairs carry extended values, so a geometry
can contain non-finite coordinates. -/
inductive Geometry where
  | polygon (rings : List (List (F × F)))
  | multiPolygon (polys : List (List (List (F × F))))
  | other (gtype : String)
deriving Repr

/-- The external shapely / rasterio geometry operations used by `match_crs`,
taken as parameters of the embedding (their internals are outside this
repository).  `transformG` is `rasterio.warp.transform_geom` from a source to
a destination CRS; `roundG` is the WKT round trip with 6-digit rounding. -/
structure GeomOps where
  isValid : Geometry → Bool
  buffer0 : Geometry → Geometry
  transformG : ℤ → ℤ → Geometry → Geometry
  roundG : Geometry → Geometry

/-- `match_crs(raster_crs, polygon_geojson, polygon_crs_epsg)`: validate (and
buffer-repair) the input polygon, then reproject it only when the raster CRS
differs from the polygon CRS; when the two CRS are equal the original
GeoJSON is returned unchanged.  CRS are modelled by their EPSG codes. -/
def match_crs (ops : GeomOps) (raster_crs : ℤ) (polygon_geojson : Geometry)
    (polygon_crs_epsg : ℤ) : Except String Geometry := do
  let polygon_shape := polygon_geojson
  let _polygon_shape ←
    if ops.isValid polygon_shape then pure polygon_shape
    else
      let repaired := ops.buffer0 polygon_shape
      if ops.isValid repaired then pure repaired
      else Except.error "Original polygon geometry is invalid and could not be fixed."
  if raster_crs ≠ polygon_crs_epsg then
    let reprojected := ops.transformG polygon_crs_epsg raster_crs polygon_geojson
    let reprojected_shape ←
      if ops.isValid reprojected then pure reprojected
      else
        let repaired := ops.buffer0 reprojected
        if ops.isValid repaired then pure repaired
        else Except.error "Transformed polygon geometry is invalid and could not be fixed."
    pure (ops.roundG reprojected_shape)
  else
    pure polygon_geojson

/-- `utm_epsg_from_polygon(polygon_geojson_wgs84)` from the centroid onward:
the centroid itself is computed by the external geometry library and is
passed here as its (lon, lat) coordinates.  Rejects latitudes beyond
84N/80S, computes the UTM zone `int((lon + 180) // 6) + 1` clamped to
[1, 60], and returns EPSG 32600+zone (northern) or 32700+zone (southern). -/
def utm_epsg_from_polygon (lon lat : ℚ) : Except String ℤ :=
  if lat > 84 ∨ lat < -80 then
    Except.error "UTM is undefined for latitudes beyond 84N/80S."
  else
    let zone0 : ℤ := Int.floor ((lon + 180) / 6) + 1
    let zone : ℤ := max 1 (min zone0 60)
    Except.ok (if lat ≥ 0 then 32600 + zone else 32700 + zone)

/-- Does a coordinate pair consist of finite values only
(`all(np.isfinite(coord) for coord in coord_pair)`)? -/
def pairFinite (p : F × F) : Bool :=
  p.1.isFinite && p.2.isFinite

/-- The coordinate-validation prologue of `clipping_raster` (views.py lines
453-471): walk every coordinate pair of the Polygon or MultiPolygon and fail
on the first non-finite value; any other geometry type is rejected. -/
def coordsValid : Geometry → Except String Unit
  | .polygon rings =>
      if rings.all (fun ring => ring.all pairFinite) then Except.ok ()
      else Except.error "Polygon coordinates are invalid. Please check the input polygon."
  | .multiPolygon polys =>
      if polys.all (fun poly => poly.all (fun ring => ring.all pairFinite)) then Except.ok ()
      else Except.error "Polygon coordinates are invalid. Please check the input polygon."
  | .other gtype =>
      Except.error ("Unsupported geometry type: " ++ gtype)

/-- `clipping_raster(polygon_geojson, image_path)`: validate the polygon
coordinates first, then open the raster, check bounds overlap and run
`rasterio.mask.mask` — the raster side is external and is taken as the
`maskOp` parameter (covering the overlap check and the mask itself). -/
def clipping_raster (polygon_geojson : Geometry)
    (maskOp : Geometry → Except String Clipped) : Except String Clipped :=
  match coordsValid polygon_geojson with
  | Except.error e => Except.error e
  | Except.ok _ => maskOp polygon_geojson

/-- The validity mask `np.any(clipped_image != 0, axis=0)` with its shape:
a boolean grid of the clipped raster's height and width, true where some
band is non-zero. -/
structure BoolGrid where
  height : ℕ
  width : ℕ
  data : ℕ → ℕ → Bool

/-- `valid_mask = np.any(clipped_image != 0, axis=0)` as used by
`band_stacker` and `band_stacker_from_mem`. -/
def validMaskOf (c : Clipped) : BoolGrid :=
  { height := c.height
    width := c.width
    data := fun r col => (List.range c.bands).any (fun b => F.neqZero (c.data b r col)) }

/-- `band_stacker_from_mem(stacked_array, raster_profile, polygon_geojson,
polygon_crs_epsg)`: reconcile the polygon into the raster CRS, clip the
in-memory raster (the `MemoryFile` dataset and `rasterio.mask.mask` are
external, taken as `maskOp`), derive the validity mask, and prepare the
features.  No coordinate-finiteness validation is performed. -/
def band_stacker_from_mem (ops : GeomOps) (raster_crs : ℤ)
    (maskOp : Geometry → Except String Clipped)
    (polygon_geojson : Geometry) (polygon_crs_epsg : ℤ) :
    Except String ((ℕ → ℕ → F) × ℕ × ℕ × BoolGrid) := do
  let new_polygon_geojson ← match_crs ops raster_crs polygon_geojson polygon_crs_epsg
  let clipped_image ← maskOp new_polygon_geojson
  let valid_mask := validMaskOf clipped_image
  let (feature_input, height, width) ← prepare_features clipped_image
  pure (feature_input, height, width, valid_mask)

/-- `band_stacker(raster_path, polygon_geojson, polygon_crs_epsg)`: identical
pipeline for a raster opened from a path (the opened dataset and
`rasterio.mask.mask` are external, taken as `maskOp`).  No
coordinate-finiteness validation is performed. -/
def band_stacker (ops : GeomOps) (raster_crs : ℤ)
    (maskOp : Geometry → Except String Clipped)
    (polygon_geojson : Geometry) (polygon_crs_epsg : ℤ) :
    Except String ((ℕ → ℕ → F) × ℕ × ℕ × BoolGrid) := do
  let new_polygon_geojson ← match_crs ops raster_crs polygon_geojson polygon_crs_epsg
  let clipped_image ← maskOp new_polygon_geojson
  let valid_mask := validMaskOf clipped_image
  let (feature_input, height, width) ← prepare_features clipped_image
  pure (feature_input, height, width, valid_mask)

/-! ### Output rasterization (views.py `TillerDensityMap` lines 781-792 and
`create_outputRaster_COG` lines 833-903) -/

/-- The nodata sentinel `-99999.0` used for the prediction raster. -/
def nodata_value : ℚ := -99999

/-- `density_array[~valid_mask] = nodata_value`: force every pixel whose
validity-mask entry is false to the nodata sentinel. -/
def maskPredictions (density : ℕ → ℕ → ℚ) (valid : ℕ → ℕ → Bool) : ℕ → ℕ → ℚ :=
  fun r c => if valid r c then density r c else nodata_value

/-- Resampling modes of `rasterio.warp.Resampling` used by the repository. -/
inductive Resampling where
  | nearest
  | bilinear
deriving DecidableEq, Repr

/-- The arguments the repository passes to `rasterio.warp.reproject`. -/
structure ReprojectCall where
  src_nodata : ℚ
  dst_nodata : ℚ
  init_dest : Bool
  resampling : Resampling

/-- The raster profile fields `create_outputRaster_COG` writes the output
with. -/
structure COGProfile where
  count : ℕ
  dtype : String
  nodata : ℚ
  compress : String
  driver : String

/-- Models the external `rasterio.warp.reproject` call with nearest-neighbour
resampling: `nearestSrc` gives, for each destination pixel, the nearest
source pixel under the coordinate transform when one exists.  A destination
pixel with no source keeps the pre-filled destination value; a source pixel
holding `src_nodata` maps to `dst_nodata`; every other pixel copies its
nearest source value unchanged (no interpolation). -/
def reprojectNearestModel (source : ℕ → ℕ → ℚ) (destination : ℕ → ℕ → ℚ)
    (call : ReprojectCall) (nearestSrc : ℕ → ℕ → Option (ℕ × ℕ)) : ℕ → ℕ → ℚ :=
  fun r c =>
    match nearestSrc r c with
    | none => destination r c
    | some (i, j) =>
        if source i j = call.src_nodata then call.dst_nodata else source i j

/-- `create_outputRaster_COG(raster_profile, transform, predictArray,
output_path, target_crs)`: build the single-band float32 COG profile with
nodata -99999.0, pre-fill the destination buffer with the nodata sentinel
(`np.full`), and reproject the prediction array into it with
nearest-neighbour resampling and the same nodata on both sides.  Returns the
written band together with the profile and the reproject call record. -/
def create_outputRaster_COG (predictArray : ℕ → ℕ → ℚ)
    (nearestSrc : ℕ → ℕ → Option (ℕ × ℕ)) :
    (ℕ → ℕ → ℚ) × COGProfile × ReprojectCall :=
  let profile : COGProfile :=
    { count := 1, dtype := "float32", nodata := nodata_value,
      compress := "LZW", driver := "COG" }
  let destination : ℕ → ℕ → ℚ := fun _ _ => nodata_value
  let call : ReprojectCall :=
    { src_nodata := nodata_value, dst_nodata := nodata_value,
      init_dest := true, resampling := Resampling.nearest }
  (reprojectNearestModel predictArray destination call nearestSrc, profile, call)

/-- The post-prediction fragment of the `TillerDensityMap` view (lines
781-792): apply the validity mask to the prediction grid (forcing nodata
outside the polygon) and only then rasterize it to the output COG. -/
def tillerDensityRasterize (density : ℕ → ℕ → ℚ) (valid : ℕ → ℕ → Bool)
    (nearestSrc : ℕ → ℕ → Option (ℕ × ℕ)) :
    (ℕ → ℕ → ℚ) × COGProfile × ReprojectCall :=
  let density_array := maskPredictions density valid
  create_outputRaster_COG density_array nearestSrc

/-! ## Concrete inputs used by evaluation and witness theorems -/

/-- A 6-band 1×1 all-ones clip. -/
def clipOnes : Clipped := ⟨6, 1, 1, fun _ _ _ => F.fin 1⟩

/-- A 5-band 1×1 clip (wrong band count). -/
def clipFive : Clipped := ⟨5, 1, 1, fun _ _ _ => F.fin 1⟩

/-- An all-zero image (every index denominator vanishes). -/
def imgZero : Image := fun _ _ _ => F.fin 0

/-- An image with NIR = 1 and every other band 0 (an EVI probe pixel). -/
def eviProbeImage : Image := fun _ _ b => if b = 3 then F.fin 1 else F.fin 0

/-- An all-zero feature matrix. -/
def M0 : ℕ → ℕ → F := fun _ _ => F.fin 0

/-- A constant-3 feature matrix. -/
def Mconst3 : ℕ → ℕ → F := fun _ _ => F.fin 3

/-- A polygon whose first ring contains NaN x-coordinates. -/
def nanPoly : Geometry :=
  Geometry.polygon
    [[(F.nan, F.fin 0), (F.fin 1, F.fin 0), (F.fin 1, F.fin 1), (F.nan, F.fin 0)]]

/-- A finite unit-square polygon. -/
def squarePoly : Geometry :=
  Geometry.polygon
    [[(F.fin 0, F.fin 0), (F.fin 1, F.fin 0), (F.fin 1, F.fin 1),
      (F.fin 0, F.fin 1), (F.fin 0, F.fin 0)]]

/-- Trivial external geometry operations: everything valid, every transform
the identity. -/
def trivialOps : GeomOps :=
  { isValid := fun _ => true
    buffer0 := id
    transformG := fun _ _ g => g
    roundG := id }

/-! ## Helper lemmas -/

theorem F.add_fin (a b : ℚ) : F.fin a + F.fin b = F.fin (a + b) := rfl

theorem F.sub_fin (a b : ℚ) : F.fin a - F.fin b = F.fin (a - b) := rfl

theorem F.mul_fin (a b : ℚ) : F.fin a * F.fin b = F.fin (a * b) := rfl

theorem F.div_fin (a b : ℚ) (hb : b ≠ 0) : F.fin a / F.fin b = F.fin (a / b) := by
  show F.div (F.fin a) (F.fin b) = F.fin (a / b)
  simp [F.div, hb]

theorem F.isFinite_iff (x : F) : x.isFinite = true ↔ ∃ q, x = F.fin q := by
  cases x <;> simp [F.isFinite]

theorem F.div_by_fin_zero (x : F) : (x / F.fin 0).isFinite = false := by
  show (F.div x (F.fin 0)).isFinite = false
  cases x <;> simp only [F.div] <;> first
    | (split_ifs <;> rfl)
    | rfl

theorem F.sub_fin_right_nonfinite (x : F) (b : ℚ) (h : x.isFinite = false) :
    (x - F.fin b).isFinite = false := by
  cases x with
  | fin q => exact absurd h (by simp [F.isFinite])
  | pinf => rfl
  | ninf => rfl
  | nan => rfl

theorem sanitize_isFinite (g : Grid) (fv : ℚ) (r c : ℕ) :
    ((sanitize g fv) r c).isFinite = true := by
  unfold sanitize
  cases h : (g r c).isFinite with
  | true => simp [h]
  | false => simp [h, F.isFinite]

theorem sanitize_eq_fill (g : Grid) (fv : ℚ) (r c : ℕ)
    (h : (g r c).isFinite = false) : sanitize g fv r c = F.fin fv := by
  unfold sanitize
  simp [h]

theorem sanitize_eq_self (g : Grid) (fv : ℚ) (r c : ℕ)
    (h : (g r c).isFinite = true) : sanitize g fv r c = g r c := by
  unfold sanitize
  simp [h]

theorem sanitize_of_eq_fin (g : Grid) (fv : ℚ) (r c : ℕ) (q : ℚ)
    (h : g r c = F.fin q) : sanitize g fv r c = F.fin q := by
  unfold sanitize
  rw [h]
  simp [F.isFinite]

theorem pair_snd_sanitize_isFinite (name : String) (g : Grid) (fv : ℚ) (r c : ℕ) :
    (((name, sanitize g fv) : String × Grid).2 r c).isFinite = true :=
  sanitize_isFinite g fv r c

theorem F.neqZero_iff (x : F) : F.neqZero x = true ↔ x ≠ F.fin 0 := by
  cases x <;> simp [F.neqZero]

theorem match_crs_eq_self (ops : GeomOps) (crs : ℤ) (g : Geometry)
    (hv : ops.isValid g = true) : match_crs ops crs g crs = Except.ok g := by
  unfold match_crs
  simp only [hv, if_true]
  simp only [ne_eq, not_true_eq_false, if_false, ite_self]
  rfl

theorem indices_keys (img : Image) :
    (indices_layers img).map Prod.fst = FEATURE_ORDER_21 := rfl

theorem indices_layers_length (img : Image) : (indices_layers img).length = 21 := rfl

theorem indices_calculator_ok (img : Image) :
    indices_calculator img = Except.ok (indices_layers img) := by
  show (if (indices_layers img).map Prod.fst = FEATURE_ORDER_21
        then Except.ok (indices_layers img)
        else Except.error "Feature order mismatch for PS-compatible 21-feature schema.") =
      Except.ok (indices_layers img)
  rw [if_pos (indices_keys img)]

/-! ## Claim theorems -/

/-- C1: for every 6-band clipped raster the feature synthesizer
(`indices_calculator` / `prepare_features`) succeeds and returns exactly 21
per-pixel features whose names are in the exact canonical slot order
`FEATURE_ORDER_21`; for every input whose band count is not 6 it fails with
the band-count error instead of returning a feature matrix. -/
theorem feature_synthesizer_contract (c : Clipped) :
    (c.bands = 6 →
      ∃ fi, prepare_features c = Except.ok (fi, c.height, c.width) ∧
        indices_calculator (transpose_hwc c) = Except.ok (indices_layers (transpose_hwc c)) ∧
        (indices_layers (transpose_hwc c)).map Prod.fst = FEATURE_ORDER_21 ∧
        (indices_layers (transpose_hwc c)).length = 21) ∧
    (c.bands ≠ 6 →
      prepare_features c =
        Except.error ("Expected 6-band HLS input, got " ++ toString c.bands ++ " bands.")) := by
  constructor
  · intro h6
    refine ⟨fun p j =>
      ((FEATURE_ORDER_21.map (fun name =>
          ((indices_layers (transpose_hwc c)).lookup name).getD (fun _ _ => F.nan))).getD j
        (fun _ _ => F.nan)) (p / c.width) (p % c.width),
      ?_, indices_calculator_ok _, indices_keys _, indices_layers_length _⟩
    unfold prepare_features
    rw [if_neg (by simp [h6]), indices_calculator_ok]
    simp [indices_keys]
  · intro hne
    unfold prepare_features
    rw [if_pos hne]

/-- C1 witness: the contract evaluated at a concrete 6-band clip and a
concrete 5-band clip. -/
theorem feature_synthesizer_contract_witness :
    (∃ fi, prepare_features clipOnes = Except.ok (fi, clipOnes.height, clipOnes.width) ∧
        indices_calculator (transpose_hwc clipOnes) =
          Except.ok (indices_layers (transpose_hwc clipOnes)) ∧
        (indices_layers (transpose_hwc clipOnes)).map Prod.fst = FEATURE_ORDER_21 ∧
        (indices_layers (transpose_hwc clipOnes)).length = 21) ∧
    prepare_features clipFive =
      Except.error ("Expected 6-band HLS input, got " ++ toString clipFive.bands ++ " bands.") :=
  ⟨(feature_synthesizer_contract clipOnes).1 rfl,
   (feature_synthesizer_contract clipFive).2 (by decide)⟩

/-- C2 (code-bug evidence): at a pixel with NIR = 1 and every other band 0,
the synthesizer's EVI slot holds (NIR−R)/(NIR+6R−7.5B+1) = 1/2, while the
claimed formula 2.5×(NIR−R)/(NIR+6R−7.5B+1) — exactly the repository's own
`evi_calculation` helper — gives 5/4 on the same bands: the inline EVI in
`indices_calculator` drops the 2.5 gain factor. -/
theorem evi_gain_missing :
    layerAt (indices_layers eviProbeImage) "EVI" 0 0 = F.fin (1/2) ∧
    evi_calculation (F.fin 1) (F.fin 0) (F.fin 0) = F.fin (5/4) ∧
    (F.fin (1/2) : F) ≠ F.fin (5/4) := by
  refine ⟨?_, ?_, ?_⟩
  · have hL : layerAt (indices_layers eviProbeImage) "EVI" =
        sanitize (fun r c => (eviProbeImage r c 3 - eviProbeImage r c 2) /
          (eviProbeImage r c 3 + F.fin 6 * eviProbeImage r c 2 -
            F.fin (15/2) * eviProbeImage r c 0 + F.fin 1)) (-9999) := rfl
    rw [hL]
    apply sanitize_of_eq_fin
    show (F.fin 1 - F.fin 0) /
        (F.fin 1 + F.fin 6 * F.fin 0 - F.fin (15/2) * F.fin 0 + F.fin 1) = F.fin (1/2)
    simp only [F.sub_fin, F.add_fin, F.mul_fin]
    rw [F.div_fin _ _ (by norm_num)]
    simp only [F.fin.injEq]
    norm_num
  · show F.fin (5/2) * ((F.fin 1 - F.fin 0) /
        (F.fin 1 + F.fin 6 * F.fin 0 - F.fin (15/2) * F.fin 0 + F.fin 1)) = F.fin (5/4)
    simp only [F.sub_fin, F.add_fin, F.mul_fin]
    rw [F.div_fin _ _ (by norm_num), F.mul_fin]
    simp only [F.fin.injEq]
    norm_num
  · simp only [ne_eq, F.fin.injEq]
    norm_num

/-- C4: every feature layer returned by the synthesizer is everywhere finite
(never NaN or Inf), and at every pixel where an index's denominator is zero
the slot holds the -9999 fill sentinel (shown for NDVI when NIR+R = 0, for
RVI_1 when R = 0, and for GCI when G = 0). -/
theorem indices_sanitized (img : Image) :
    (∀ pr ∈ indices_layers img, ∀ r c, ((pr.2) r c).isFinite = true) ∧
    (∀ r c nir rr, img r c 3 = F.fin nir → img r c 2 = F.fin rr → nir + rr = 0 →
      layerAt (indices_layers img) "NDVI" r c = F.fin (-9999)) ∧
    (∀ r c, img r c 2 = F.fin 0 →
      layerAt (indices_layers img) "RVI_1" r c = F.fin (-9999)) ∧
    (∀ r c, img r c 1 = F.fin 0 →
      layerAt (indices_layers img) "GCI" r c = F.fin (-9999)) := by
  refine ⟨?_, ?_, ?_, ?_⟩
  · intro pr hpr r c
    simp only [indices_layers, List.mem_cons, List.not_mem_nil, or_false] at hpr
    rcases hpr with h|h|h|h|h|h|h|h|h|h|h|h|h|h|h|h|h|h|h|h|h <;>
      (rw [h]; exact pair_snd_sanitize_isFinite _ _ _ _ _)
  · intro r c nir rr h3 h2 hsum
    have hL : layerAt (indices_layers img) "NDVI" =
        sanitize (fun r c => (img r c 3 - img r c 2) / (img r c 3 + img r c 2)) (-9999) := rfl
    rw [hL]
    apply sanitize_eq_fill
    show ((img r c 3 - img r c 2) / (img r c 3 + img r c 2)).isFinite = false
    rw [h3, h2, F.sub_fin, F.add_fin, hsum]
    exact F.div_by_fin_zero _
  · intro r c h2
    have hL : layerAt (indices_layers img) "RVI_1" =
        sanitize (fun r c => img r c 3 / img r c 2) (-9999) := rfl
    rw [hL]
    apply sanitize_eq_fill
    show (img r c 3 / img r c 2).isFinite = false
    rw [h2]
    exact F.div_by_fin_zero _
  · intro r c h1
    have hL : layerAt (indices_layers img) "GCI" =
        sanitize (fun r c => (img r c 3 / img r c 1) - F.fin 1) (-9999) := rfl
    rw [hL]
    apply sanitize_eq_fill
    show ((img r c 3 / img r c 1) - F.fin 1).isFinite = false
    rw [h1]
    exact F.sub_fin_right_nonfinite _ _ (F.div_by_fin_zero _)

/-- C4 witness: on the all-zero image every shown denominator vanishes; the
NDVI / RVI_1 / GCI slots hold the -9999 fill and the NDVI slot is finite. -/
theorem indices_sanitized_witness :
    ((sanitize (fun r c => imgZero r c 0) (-9999)) 0 0).isFinite = true ∧
    layerAt (indices_layers imgZero) "NDVI" 0 0 = F.fin (-9999) ∧
    layerAt (indices_layers imgZero) "RVI_1" 0 0 = F.fin (-9999) ∧
    layerAt (indices_layers imgZero) "GCI" 0 0 = F.fin (-9999) :=
  ⟨(indices_sanitized imgZero).1
      ("B", sanitize (fun r c => imgZero r c 0) (-9999)) (List.mem_cons_self _ _) 0 0,
   (indices_sanitized imgZero).2.1 0 0 0 0 rfl rfl (by norm_num),
   (indices_sanitized imgZero).2.2.1 0 0 rfl,
   (indices_sanitized imgZero).2.2.2 0 0 rfl⟩

/-- C3: the input-shape adaptation (`predict_density` / `reshape_for_model`)
succeeds on the pipeline's 21-feature matrix exactly for declared predictor
shapes (21, 1) and (1, 21), succeeds for (4, 6) when the feature count is 6,
and for every unsupported combination fails with an error naming both the
expected shape and the provided feature shape. -/
theorem reshape_contract (steps channels n : ℕ) (M : ℕ → ℕ → F) :
    ((∃ t, reshape_for_model steps channels n 21 M = Except.ok t) ↔
      (steps = 21 ∧ channels = 1) ∨ (steps = 1 ∧ channels = 21)) ∧
    ((∃ t, predict_density_reshape steps channels n 21 M = Except.ok t) ↔
      (steps = 21 ∧ channels = 1) ∨ (steps = 1 ∧ channels = 21)) ∧
    (∃ t, reshape_for_model 4 6 n 6 M = Except.ok t) ∧
    (∃ t, predict_density_reshape 4 6 n 6 M = Except.ok t) ∧
    (∀ feats, ¬((steps = feats ∧ channels = 1) ∨ (steps = 1 ∧ channels = feats) ∨
        (steps = 4 ∧ channels = 6 ∧ feats = 6)) →
      reshape_for_model steps channels n feats M =
        Except.error ("Model expects (" ++ toString steps ++ ", " ++ toString channels ++
          ") but provided feature shape is (" ++ toString feats ++ ").")) := by
  refine ⟨?_, ?_, ⟨_, rfl⟩, ⟨_, rfl⟩, ?_⟩
  · unfold reshape_for_model
    split_ifs with h1 h2 h3
    · exact iff_of_true ⟨_, rfl⟩ (Or.inl h1)
    · exact iff_of_true ⟨_, rfl⟩ (Or.inr h2)
    · exact absurd h3.2.2 (by norm_num)
    · constructor
      · rintro ⟨t, ht⟩
        cases ht
      · rintro (h | h)
        · exact absurd h h1
        · exact absurd h h2
  · unfold predict_density_reshape
    split_ifs with h1 h2 h3
    · exact iff_of_true ⟨_, rfl⟩ (Or.inl h1)
    · exact iff_of_true ⟨_, rfl⟩ (Or.inr h2)
    · exact absurd h3.2.2 (by norm_num)
    · constructor
      · rintro ⟨t, ht⟩
        cases ht
      · rintro (h | h)
        · exact absurd h h1
        · exact absurd h h2
  · intro feats hn
    unfold reshape_for_model
    split_ifs with h1 h2 h3
    · exact absurd (Or.inl h1) hn
    · exact absurd (Or.inr (Or.inl h2)) hn
    · exact absurd (Or.inr (Or.inr h3)) hn
    · rfl

/-- C3 witness: concrete success for (21, 1) with 21 features and (4, 6)
with 6 features, and the concrete error for declared shape (3, 2). -/
theorem reshape_contract_witness :
    (∃ t, reshape_for_model 21 1 1 21 M0 = Except.ok t) ∧
    (∃ t, predict_density_reshape 4 6 1 6 M0 = Except.ok t) ∧
    reshape_for_model 3 2 1 21 M0 =
      Except.error ("Model expects (" ++ toString 3 ++ ", " ++ toString 2 ++
        ") but provided feature shape is (" ++ toString 21 ++ ").") :=
  ⟨(reshape_contract 21 1 1 M0).1.mpr (Or.inl ⟨rfl, rfl⟩),
   (reshape_contract 4 6 1 M0).2.2.2.1,
   (reshape_contract 3 2 1 M0).2.2.2.2 21 (by decide)⟩

/-- C5: prediction pixels with a false validity-mask entry are forced to
-99999.0 before rasterization; the rasterization pre-fills the destination
with -99999.0, reprojects nearest-neighbour with -99999.0 as nodata on both
sides, and writes a single-band float32 profile with nodata -99999.0, so
every masked or source-less destination pixel is nodata in the output. -/
theorem output_nodata_contract (density : ℕ → ℕ → ℚ) (valid : ℕ → ℕ → Bool)
    (nearestSrc : ℕ → ℕ → Option (ℕ × ℕ)) :
    (tillerDensityRasterize density valid nearestSrc).2.1.count = 1 ∧
    (tillerDensityRasterize density valid nearestSrc).2.1.dtype = "float32" ∧
    (tillerDensityRasterize density valid nearestSrc).2.1.nodata = -99999 ∧
    (tillerDensityRasterize density valid nearestSrc).2.2.resampling = Resampling.nearest ∧
    (tillerDensityRasterize density valid nearestSrc).2.2.src_nodata = -99999 ∧
    (tillerDensityRasterize density valid nearestSrc).2.2.dst_nodata = -99999 ∧
    (tillerDensityRasterize density valid nearestSrc).2.2.init_dest = true ∧
    (∀ i j, valid i j = false → maskPredictions density valid i j = -99999) ∧
    (∀ r c, nearestSrc r c = none →
      (tillerDensityRasterize density valid nearestSrc).1 r c = -99999) ∧
    (∀ r c i j, nearestSrc r c = some (i, j) → valid i j = false →
      (tillerDensityRasterize density valid nearestSrc).1 r c = -99999) := by
  refine ⟨rfl, rfl, rfl, rfl, rfl, rfl, rfl, ?_, ?_, ?_⟩
  · intro i j h
    simp [maskPredictions, h, nodata_value]
  · intro r c h
    simp [tillerDensityRasterize, create_outputRaster_COG, reprojectNearestModel, h,
      nodata_value]
  · intro r c i j hn hv
    simp [tillerDensityRasterize, create_outputRaster_COG, reprojectNearestModel, hn,
      maskPredictions, hv, nodata_value]

/-- C5 witness: evaluation at a concrete density grid, all-false mask, and
two concrete reprojection pixel maps. -/
theorem output_nodata_contract_witness :
    maskPredictions (fun _ _ => 7) (fun _ _ => false) 0 0 = -99999 ∧
    (tillerDensityRasterize (fun _ _ => 7) (fun _ _ => false) (fun _ _ => none)).1 0 0 = -99999 ∧
    (tillerDensityRasterize (fun _ _ => 7) (fun _ _ => false)
        (fun _ _ => some (0, 0))).1 0 0 = -99999 := by
  obtain ⟨-, -, -, -, -, -, -, hmask, hnone, -⟩ :=
    output_nodata_contract (fun _ _ => 7) (fun _ _ => false) (fun _ _ => none)
  obtain ⟨-, -, -, -, -, -, -, -, -, hsome⟩ :=
    output_nodata_contract (fun _ _ => 7) (fun _ _ => false) (fun _ _ => some (0, 0))
  exact ⟨hmask 0 0 rfl, hnone 0 0 rfl, hsome 0 0 0 0 rfl rfl⟩

/-- C6: `utm_epsg_from_polygon` errors exactly when the centroid latitude is
outside [-80, 84]; otherwise it deterministically returns 32600+zone for
lat ≥ 0 and 32700+zone for lat < 0, with zone = floor((lon+180)/6)+1 clamped
to [1, 60], so the result lies in 32601–32660 (north) / 32701–32760
(south). -/
theorem utm_epsg_contract (lon lat : ℚ) :
    ((∃ msg, utm_epsg_from_polygon lon lat = Except.error msg) ↔ (lat > 84 ∨ lat < -80)) ∧
    (¬(lat > 84 ∨ lat < -80) →
      utm_epsg_from_polygon lon lat =
        Except.ok (if lat ≥ 0
          then 32600 + max 1 (min (Int.floor ((lon + 180) / 6) + 1) 60)
          else 32700 + max 1 (min (Int.floor ((lon + 180) / 6) + 1) 60)) ∧
      (∀ e, utm_epsg_from_polygon lon lat = Except.ok e →
        (0 ≤ lat → 32601 ≤ e ∧ e ≤ 32660) ∧ (lat < 0 → 32701 ≤ e ∧ e ≤ 32760))) := by
  have hz1 : (1 : ℤ) ≤ max 1 (min (Int.floor ((lon + 180) / 6) + 1) 60) := le_max_left _ _
  have hz60 : max 1 (min (Int.floor ((lon + 180) / 6) + 1) 60) ≤ 60 :=
    max_le (by norm_num) (min_le_right _ _)
  constructor
  · constructor
    · rintro ⟨msg, hmsg⟩
      by_contra hc
      unfold utm_epsg_from_polygon at hmsg
      rw [if_neg hc] at hmsg
      cases hmsg
    · intro h
      refine ⟨"UTM is undefined for latitudes beyond 84N/80S.", ?_⟩
      unfold utm_epsg_from_polygon
      rw [if_pos h]
  · intro h
    have heq : utm_epsg_from_polygon lon lat =
        Except.ok (if lat ≥ 0
          then 32600 + max 1 (min (Int.floor ((lon + 180) / 6) + 1) 60)
          else 32700 + max 1 (min (Int.floor ((lon + 180) / 6) + 1) 60)) := by
      unfold utm_epsg_from_polygon
      rw [if_neg h]
    refine ⟨heq, ?_⟩
    intro e he
    rw [heq] at he
    injection he with he
    subst he
    constructor
    · intro h0
      rw [if_pos h0]
      omega
    · intro h0
      rw [if_neg (not_le.mpr h0)]
      omega

/-- C6 witness: error for a latitude of 100; EPSG 32631 for centroid (0, 10),
inside the claimed northern range. -/
theorem utm_epsg_contract_witness :
    (∃ msg, utm_epsg_from_polygon 0 100 = Except.error msg) ∧
    utm_epsg_from_polygon 0 10 = Except.ok 32631 ∧
    (32601 ≤ (32631 : ℤ) ∧ (32631 : ℤ) ≤ 32660) := by
  have h100 := (utm_epsg_contract 0 100).1.mpr (by norm_num)
  have h10 := (utm_epsg_contract 0 10).2 (by norm_num)
  have heval : utm_epsg_from_polygon 0 10 = Except.ok 32631 := by
    rw [h10.1]
    norm_num
  exact ⟨h100, heval, (h10.2 32631 heval).1 (by norm_num)⟩

/-- C8: the validity mask has exactly the clipped raster's height and width
and is true at a pixel iff at least one band is non-zero there. -/
theorem validity_mask_contract (cl : Clipped) :
    (validMaskOf cl).height = cl.height ∧
    (validMaskOf cl).width = cl.width ∧
    (∀ r c, (validMaskOf cl).data r c = true ↔
      ∃ b, b < cl.bands ∧ cl.data b r c ≠ F.fin 0) := by
  refine ⟨rfl, rfl, ?_⟩
  intro r c
  show (List.range cl.bands).any (fun b => F.neqZero (cl.data b r c)) = true ↔ _
  rw [List.any_eq_true]
  constructor
  · rintro ⟨b, hb, hx⟩
    exact ⟨b, List.mem_range.mp hb, (F.neqZero_iff _).mp hx⟩
  · rintro ⟨b, hb, hx⟩
    exact ⟨b, List.mem_range.mpr hb, (F.neqZero_iff _).mpr hx⟩

/-- C8 witness: the mask of the all-ones 6-band clip is true at (0,0) and has
its height and width. -/
theorem validity_mask_contract_witness :
    (validMaskOf clipOnes).height = clipOnes.height ∧
    (validMaskOf clipOnes).width = clipOnes.width ∧
    (validMaskOf clipOnes).data 0 0 = true := by
  obtain ⟨hh, hw, hiff⟩ := validity_mask_contract clipOnes
  refine ⟨hh, hw, (hiff 0 0).mpr ⟨0, by decide, ?_⟩⟩
  show F.fin 1 ≠ F.fin 0
  simp

/-- C9: when the source CRS equals the target CRS, `match_crs` is the
identity on every valid polygon: the input GeoJSON is returned unchanged. -/
theorem reconcile_crs_identity (ops : GeomOps) (crs : ℤ) (g : Geometry)
    (hv : ops.isValid g = true) : match_crs ops crs g crs = Except.ok g :=
  match_crs_eq_self ops crs g hv

/-- C9 witness: identity on a concrete valid square polygon. -/
theorem reconcile_crs_identity_witness :
    match_crs trivialOps 32614 squarePoly 32614 = Except.ok squarePoly :=
  reconcile_crs_identity trivialOps 32614 squarePoly rfl

/-- C7 counterexample: a polygon with NaN coordinates flows through the
in-memory clip entry point `band_stacker_from_mem` to a successful clip — no
hard error is raised before the mask operation — even though the polygon
fails the finite-coordinate validation (which only `clipping_raster`
performs). -/
theorem nonfinite_polygon_not_rejected :
    coordsValid nanPoly =
      Except.error "Polygon coordinates are invalid. Please check the input polygon." ∧
    ∃ out, band_stacker_from_mem trivialOps 32614 (fun _ => Except.ok clipOnes)
      nanPoly 32614 = Except.ok out := by
  exact ⟨rfl, ⟨_, rfl⟩⟩

/-- C7 amended: `clipping_raster` (the stand-alone path-based clip helper)
raises the coordinate error before the mask operation on any Polygon or
MultiPolygon with a non-finite coordinate, for every mask operation; the
pipeline's clip entry points `band_stacker_from_mem` and `band_stacker`
perform no coordinate-finiteness validation and proceed to the mask
operation for every polygon accepted by the geometry validation. -/
theorem clip_validation_contract :
    (∀ (rings : List (List (F × F))) (maskOp : Geometry → Except String Clipped),
      (rings.all fun ring => ring.all pairFinite) = false →
      clipping_raster (Geometry.polygon rings) maskOp =
        Except.error "Polygon coordinates are invalid. Please check the input polygon.") ∧
    (∀ (polys : List (List (List (F × F)))) (maskOp : Geometry → Except String Clipped),
      (polys.all fun poly => poly.all fun ring => ring.all pairFinite) = false →
      clipping_raster (Geometry.multiPolygon polys) maskOp =
        Except.error "Polygon coordinates are invalid. Please check the input polygon.") ∧
    (∀ (ops : GeomOps) (crs : ℤ) (g : Geometry) (e : String),
      ops.isValid g = true →
      band_stacker_from_mem ops crs (fun _ => Except.error e) g crs = Except.error e) ∧
    (∀ (ops : GeomOps) (crs : ℤ) (g : Geometry) (e : String),
      ops.isValid g = true →
      band_stacker ops crs (fun _ => Except.error e) g crs = Except.error e) := by
  refine ⟨?_, ?_, ?_, ?_⟩
  · intro rings maskOp h
    simp [clipping_raster, coordsValid, h]
  · intro polys maskOp h
    simp [clipping_raster, coordsValid, h]
  · intro ops crs g e hv
    unfold band_stacker_from_mem
    rw [match_crs_eq_self ops crs g hv]
    rfl
  · intro ops crs g e hv
    unfold band_stacker
    rw [match_crs_eq_self ops crs g hv]
    rfl

/-- C7 amended witness: the path helper rejects the NaN polygon for a
concrete mask operation, and the in-memory entry point reaches a concrete
failing mask operation on a valid polygon. -/
theorem clip_validation_contract_witness :
    clipping_raster nanPoly (fun _ => Except.ok clipOnes) =
      Except.error "Polygon coordinates are invalid. Please check the input polygon." ∧
    band_stacker_from_mem trivialOps 32614 (fun _ => Except.error "mask ran")
      squarePoly 32614 = Except.error "mask ran" := by
  exact ⟨clip_validation_contract.1 _ _ rfl,
    clip_validation_contract.2.2.1 trivialOps 32614 squarePoly "mask ran" rfl⟩

/-! ## Lemmas for the legacy feature scaling (C10) -/

theorem F.eq_fin_val (x : F) (h : x.isFinite = true) : x = F.fin x.val := by
  cases x with
  | fin q => rfl
  | pinf => exact absurd h (by simp [F.isFinite])
  | ninf => exact absurd h (by simp [F.isFinite])
  | nan => exact absurd h (by simp [F.isFinite])

theorem foldl_add_fin (qs : List ℚ) (a : ℚ) :
    (qs.map F.fin).foldl F.add (F.fin a) = F.fin (a + qs.sum) := by
  induction qs generalizing a with
  | nil => simp
  | cons q t ih =>
    simp only [List.map_cons, List.foldl_cons]
    have hstep : F.add (F.fin a) (F.fin q) = F.fin (a + q) := rfl
    rw [hstep, ih, List.sum_cons, add_assoc]

theorem npSum_fin (qs : List ℚ) : npSum (qs.map F.fin) = F.fin qs.sum := by
  unfold npSum
  rw [foldl_add_fin, zero_add]

theorem npMean_fin (qs : List ℚ) (h : qs.length ≠ 0) :
    npMean (qs.map F.fin) = F.fin (qs.sum / (qs.length : ℚ)) := by
  unfold npMean
  rw [npSum_fin, List.length_map, F.div_fin _ _ (by exact_mod_cast h)]

theorem colVals_eq_map (rows : ℕ) (M : ℕ → ℕ → F) (j : ℕ)
    (hfin : ∀ i, i < rows → (M i j).isFinite = true) :
    colVals rows M j = ((List.range rows).map fun i => (M i j).val).map F.fin := by
  unfold colVals
  rw [List.map_map]
  exact List.map_congr_left fun i hi => F.eq_fin_val _ (hfin i (List.mem_range.mp hi))

theorem colMean_fin (rows : ℕ) (M : ℕ → ℕ → F) (j : ℕ) (hrows : rows ≠ 0)
    (hfin : ∀ i, i < rows → (M i j).isFinite = true) :
    colMean rows M j =
      F.fin ((((List.range rows).map fun i => (M i j).val).sum) / (rows : ℚ)) := by
  unfold colMean
  rw [colVals_eq_map rows M j hfin,
    npMean_fin _ (by simpa using hrows), List.length_map, List.length_range]

theorem F.sqrtF_nonneg_fin (x : ℚ) (hx : 0 ≤ x) :
    F.sqrtF (F.fin x) = F.fin (F.ratSqrt x) := by
  simp [F.sqrtF, not_lt.mpr hx]

theorem F.ratSqrt_zero : F.ratSqrt 0 = 0 := by
  unfold F.ratSqrt
  norm_num

theorem sum_map_const_range (n : ℕ) (q : ℚ) :
    (((List.range n).map fun _ => q)).sum = n * q := by
  induction n with
  | zero => simp
  | succ m ih =>
    rw [List.range_succ, List.map_append, List.sum_append, ih]
    simp only [List.map_cons, List.map_nil, List.sum_cons, List.sum_nil, add_zero]
    push_cast
    ring

theorem colStd_fin (rows : ℕ) (M : ℕ → ℕ → F) (j : ℕ) (hrows : rows ≠ 0)
    (hfin : ∀ i, i < rows → (M i j).isFinite = true) :
    ∃ v : ℚ, 0 ≤ v ∧ colStd rows M j = F.fin (F.ratSqrt v) := by
  simp only [colStd]
  rw [colMean_fin rows M j hrows hfin, colVals_eq_map rows M j hfin]
  set mv : ℚ := (((List.range rows).map fun i => (M i j).val).sum) / (rows : ℚ) with hmvdef
  simp only [List.map_map]
  have hcomp : ∀ i ∈ List.range rows,
      ((fun x => (x - F.fin mv) * (x - F.fin mv)) ∘ F.fin ∘ fun i => (M i j).val) i =
        (F.fin ∘ fun i => ((M i j).val - mv) * ((M i j).val - mv)) i := by
    intro i _
    simp only [Function.comp]
    rw [F.sub_fin, F.mul_fin]
  rw [List.map_congr_left hcomp, ← List.map_map,
    npMean_fin _ (by rw [List.length_map, List.length_range]; exact hrows),
    List.length_map, List.length_range]
  have hS : 0 ≤ (((List.range rows).map fun i =>
      ((M i j).val - mv) * ((M i j).val - mv)).sum) / (rows : ℚ) := by
    apply div_nonneg
    · apply List.sum_nonneg
      intro x hx
      obtain ⟨i, -, rfl⟩ := List.mem_map.mp hx
      exact mul_self_nonneg _
    · exact_mod_cast Nat.zero_le rows
  exact ⟨_, hS, F.sqrtF_nonneg_fin _ hS⟩

theorem scale_features_finite (rows : ℕ) (M : ℕ → ℕ → F) (i j : ℕ)
    (hi : i < rows) (hfin : ∀ i, i < rows → (M i j).isFinite = true) :
    (scale_features rows M i j).isFinite = true := by
  have hrows : rows ≠ 0 := by omega
  obtain ⟨v, hv0, hstd⟩ := colStd_fin rows M j hrows hfin
  obtain ⟨q, hq⟩ := (F.isFinite_iff _).mp (hfin i hi)
  simp only [scale_features]
  rw [colMean_fin rows M j hrows hfin, hstd, hq]
  by_cases h0 : F.fin (F.ratSqrt v) = F.fin 0
  · rw [if_pos h0, F.sub_fin, F.div_fin _ _ one_ne_zero]
    rfl
  · rw [if_neg h0, F.sub_fin, F.div_fin]
    · rfl
    · intro hc
      exact h0 (by rw [hc])

theorem scale_features_const (rows : ℕ) (M : ℕ → ℕ → F) (j : ℕ) (q : ℚ)
    (hconst : ∀ i, i < rows → M i j = F.fin q) (i : ℕ) (hi : i < rows) :
    scale_features rows M i j = F.fin 0 := by
  have hrows : rows ≠ 0 := by omega
  have hq0 : (rows : ℚ) ≠ 0 := Nat.cast_ne_zero.mpr hrows
  have hfin : ∀ i', i' < rows → (M i' j).isFinite = true := by
    intro i' hi'
    rw [hconst i' hi']
    rfl
  have hvals : ((List.range rows).map fun i => (M i j).val) =
      ((List.range rows).map fun _ => q) :=
    List.map_congr_left fun a ha => by
      rw [hconst a (List.mem_range.mp ha)]
      rfl
  have hmv : (((List.range rows).map fun i => (M i j).val).sum) / (rows : ℚ) = q := by
    rw [hvals, sum_map_const_range, mul_comm, mul_div_assoc, div_self hq0, mul_one]
  have hstd : colStd rows M j = F.fin 0 := by
    simp only [colStd]
    rw [colMean_fin rows M j hrows hfin, hmv, colVals_eq_map rows M j hfin, hvals]
    simp only [List.map_map]
    have hzero : ∀ a ∈ List.range rows,
        ((fun x => (x - F.fin q) * (x - F.fin q)) ∘ F.fin ∘ fun _ => q) a =
          ((F.fin ∘ fun _ => (0 : ℚ))) a := by
      intro a _
      simp only [Function.comp]
      rw [F.sub_fin, F.mul_fin]
      norm_num
    rw [List.map_congr_left hzero, ← List.map_map,
      npMean_fin _ (by rw [List.length_map, List.length_range]; exact hrows),
      List.length_map, List.length_range, sum_map_const_range, mul_zero, zero_div]
    rw [F.sqrtF_nonneg_fin 0 le_rfl, F.ratSqrt_zero]
  simp only [scale_features]
  rw [colMean_fin rows M j hrows hfin, hmv, hstd, if_pos rfl, hconst i hi,
    F.sub_fin, F.div_fin _ _ one_ne_zero]
  norm_num

theorem scale_features_contract (rows : ℕ) (M : ℕ → ℕ → F)
    (hfin : ∀ i j, (M i j).isFinite = true) :
    (∀ j, (if colStd rows M j = F.fin 0 then F.fin 1 else colStd rows M j) ≠ F.fin 0) ∧
    (∀ i j, i < rows → (scale_features rows M i j).isFinite = true) ∧
    (∀ j q, (∀ i, i < rows → M i j = F.fin q) →
      ∀ i, i < rows → scale_features rows M i j = F.fin 0) := by
  refine ⟨?_, ?_, ?_⟩
  · intro j
    split_ifs with h
    · simp
    · exact h
  · intro i j hi
    exact scale_features_finite rows M i j hi (fun i' _ => hfin i' j)
  · intro j q hc i hi
    exact scale_features_const rows M j q hc i hi

/-- C10 witness: the constant-3 matrix with 2 rows — non-zero effective
divisor, finite scaled entry, and zero output at (0, 0). -/
theorem scale_features_contract_witness :
    (if colStd 2 Mconst3 0 = F.fin 0 then F.fin 1 else colStd 2 Mconst3 0) ≠ F.fin 0 ∧
    (scale_features 2 Mconst3 0 0).isFinite = true ∧
    scale_features 2 Mconst3 0 0 = F.fin 0 := by
  obtain ⟨h1, h2, h3⟩ := scale_features_contract 2 Mconst3 (fun i j => rfl)
  exact ⟨h1 0, h2 0 0 (by norm_num), h3 0 3 (fun i hi => rfl) 0 (by norm_num)⟩

end WheatTDM
